import Mathlib

/-!
Verification of the token-bindings denom registry and its protobuf reply decoder.

The definitions below are a shallow embedding of the Rust sources:
  * `build_denom`, `executeTokenMsg`, `queryToken` embed the test-registry module
    (`packages/bindings-test/src/multitest.rs`);
  * `parse_protobuf_varint`, `parse_protobuf_length_prefixed`, `parse_protobuf_string`
    embed the hand-rolled protobuf reply decoder (`packages/bindings/src/msg.rs`);
  * `validate_denom`, `create_denom`, `mint_tokens`, `burn_tokens` embed the
    tokenfactory demo contract (`contracts/tokenfactory/src/contract.rs`).

Bytes are modelled as `Nat` (each byte is < 256 in every real buffer; the bit
operations `&&&`, `>>>`, `<<<` mirror the Rust operators exactly, so no value
ever exceeds a byte where the Rust type is `u8`).  Amounts (`Uint128`) are
modelled as `Nat`: the only arithmetic performed on them is a zero test.
-/

set_option maxRecDepth 4000

namespace TokenBindings

/-! ## Error types -/

/-- Embeds `cosmwasm_std::StdError` restricted to the variants this code base
can produce: `StdError::parse_err(target, msg)` from the decoder,
`StdError::generic_err` from address validation, `StdError::invalid_utf8`
from `String::from_utf8`, and `StdError::not_found` from `Map::load`. -/
inductive StdErr where
  | parseErr (target : String) (msg : String)
  | genericErr (msg : String)
  | invalidUtf8
  | notFound (kind : String)
  deriving DecidableEq

/-- Equality of `Except` results is decidable (kernel-reducibly, so concrete
runs of the embedded functions can be settled by `decide`). -/
instance {ε α : Type} [DecidableEq ε] [DecidableEq α] : DecidableEq (Except ε α) := fun a b =>
  match a, b with
  | .error e1, .error e2 =>
    if h : e1 = e2 then .isTrue (by rw [h]) else .isFalse (by intro hc; cases hc; exact h rfl)
  | .error _, .ok _ => .isFalse (by intro hc; cases hc)
  | .ok _, .error _ => .isFalse (by intro hc; cases hc)
  | .ok x, .ok y =>
    if h : x = y then .isTrue (by rw [h]) else .isFalse (by intro hc; cases hc; exact h rfl)

/-- Embeds `ContractError` of `packages/bindings-test/src/error.rs`, extended
with `Unimplemented`: the two `todo!()` arms of the registry's `execute`
(`BurnTokens`, `ForceTransfer`) and the `todo!()` arm of `query` (`Params`)
abort instead of returning; we model that abort as the `Unimplemented` error
(the name is taken from `TokenFactoryError::Unimplemented` in
`multitest.rs`, whose comment ties it to the remaining TODOs). -/
inductive ContractError where
  | Std (err : StdErr)
  | InvalidFullDenom (full_denom : String)
  | NotTokenAdmin
  | TokenExists
  | TokenDoesntExist
  | Unimplemented
  deriving DecidableEq

/-! ## Denom name validator (`TokenFactoryModule::build_denom`) -/

/-- Embeds `TokenFactoryModule::build_denom` (multitest.rs lines 42-56).
`String.utf8ByteSize` plays the role of Rust's byte-based `str::len`, and
`creator.data.contains '/'` of Rust's `str::contains('/')` (membership of
the character among the string's characters). -/
def build_denom (creator subdenom : String) : Except ContractError String :=
  let full_denom := "factory/" ++ creator ++ "/" ++ subdenom
  if full_denom.utf8ByteSize < 3 ∨ 128 < full_denom.utf8ByteSize
      ∨ creator.data.contains '/' = true
      ∨ 44 < subdenom.utf8ByteSize
      ∨ 75 < creator.utf8ByteSize then
    .error (.InvalidFullDenom full_denom)
  else
    .ok full_denom

/-! ## The protobuf reply decoder (`copied_from_cw_utils` in msg.rs) -/

def WIRE_TYPE_LENGTH_DELIMITED : Nat := 2

def VARINT_MAX_BYTES : Nat := 9

/-- Embeds the `while i < VARINT_MAX_BYTES` loop of `parse_protobuf_varint`
(msg.rs lines 161-193).  The loop counter `i` is paired with the structural
fuel `fuel = VARINT_MAX_BYTES - i`, so `fuel = 0` is exactly the loop
leaving with `i == VARINT_MAX_BYTES` (the `varint data too long` case).
Returns the decoded length together with the index `i` of the terminating
byte (the byte without the continuation bit), exactly the two values the
Rust loop leaves behind when it breaks. -/
def varint_step (field_number : Nat) (data : List Nat) :
    Nat → Nat → Nat → Except StdErr (Nat × Nat)
  | 0, _, _ =>
    .error (.parseErr "varint"
      s!"failed to decode Protobuf message: field #{field_number}: varint data too long")
  | fuel + 1, i, len =>
    match data[i]? with
    | none =>
        .error (.parseErr "varint"
          s!"failed to decode Protobuf message: field #{field_number}: varint data too short")
    | some b =>
        let len2 := len + ((b &&& 0x7f) <<< (i * 7))
        if b &&& 0x80 == 0 then
          .ok (len2, i)
        else
          varint_step field_number data fuel (i + 1) len2

/-- Embeds `parse_protobuf_varint` (msg.rs lines 161-193).  The Rust function
mutates `data` to its remainder and returns the length; we return both. -/
def parse_protobuf_varint (data : List Nat) (field_number : Nat) :
    Except StdErr (Nat × List Nat) :=
  match varint_step field_number data VARINT_MAX_BYTES 0 0 with
  | .error e => .error e
  | .ok (len, i) => .ok (len, data.drop (i + 1))

/-- Embeds `parse_protobuf_length_prefixed` (msg.rs lines 117-157).  The Rust
function mutates `data` to the bytes after the payload and returns the
payload; we return the pair (payload, remainder). -/
def parse_protobuf_length_prefixed (data : List Nat) (field_number : Nat) :
    Except StdErr (List Nat × List Nat) :=
  match data with
  | [] => .ok ([], [])
  | tag :: rest_1 =>
    let wire_type := tag &&& 0b11
    let field := tag >>> 3
    if field ≠ field_number then
      .error (.parseErr "length_prefix_field"
        s!"failed to decode Protobuf message: invalid field #{field} for field #{field_number}")
    else if wire_type ≠ WIRE_TYPE_LENGTH_DELIMITED then
      .error (.parseErr "length_prefix_field"
        s!"failed to decode Protobuf message: field #{field_number}: invalid wire type {wire_type}")
    else
      match parse_protobuf_varint rest_1 field_number with
      | .error e => .error e
      | .ok (len, rest) =>
        if rest.length < len then
          .error (.parseErr "length_prefix_field"
            s!"failed to decode Protobuf message: field #{field_number}: message too short")
        else
          .ok (rest.take len, rest.drop len)

/-- `true` iff `b` is a UTF-8 continuation byte (`0x80..=0xBF`). -/
def isCont (b : Nat) : Bool := 0x80 ≤ b && b < 0xC0

/-- Embeds the UTF-8 validation/decoding performed by Rust's
`String::from_utf8`: accepts exactly the well-formed UTF-8 sequences
(no overlong forms, no surrogates, nothing above U+10FFFF) and yields the
decoded scalar values as characters. -/
def utf8DecodeAux : List Nat → Option (List Char)
  | [] => some []
  | b1 :: rest =>
    if b1 < 0x80 then
      (utf8DecodeAux rest).map (fun cs => Char.ofNat b1 :: cs)
    else if b1 < 0xC2 then none
    else if b1 < 0xE0 then
      match rest with
      | b2 :: rest2 =>
        if isCont b2 then
          (utf8DecodeAux rest2).map
            (fun cs => Char.ofNat ((b1 - 0xC0) * 0x40 + (b2 - 0x80)) :: cs)
        else none
      | [] => none
    else if b1 < 0xF0 then
      match rest with
      | b2 :: b3 :: rest3 =>
        if (if b1 == 0xE0 then 0xA0 ≤ b2 && b2 < 0xC0
            else if b1 == 0xED then 0x80 ≤ b2 && b2 < 0xA0
            else isCont b2) && isCont b3 then
          (utf8DecodeAux rest3).map
            (fun cs => Char.ofNat ((b1 - 0xE0) * 0x1000 + (b2 - 0x80) * 0x40 + (b3 - 0x80)) :: cs)
        else none
      | _ => none
    else if b1 < 0xF5 then
      match rest with
      | b2 :: b3 :: b4 :: rest4 =>
        if (if b1 == 0xF0 then 0x90 ≤ b2 && b2 < 0xC0
            else if b1 == 0xF4 then 0x80 ≤ b2 && b2 < 0x90
            else isCont b2) && isCont b3 && isCont b4 then
          (utf8DecodeAux rest4).map
            (fun cs => Char.ofNat
              ((b1 - 0xF0) * 0x40000 + (b2 - 0x80) * 0x1000 + (b3 - 0x80) * 0x40 + (b4 - 0x80)) :: cs)
        else none
      | _ => none
    else none

/-- Embeds `parse_protobuf_string` (msg.rs lines 110-113):
length-prefixed extraction followed by `String::from_utf8`. -/
def parse_protobuf_string (data : List Nat) (field_number : Nat) : Except StdErr String :=
  match parse_protobuf_length_prefixed data field_number with
  | .error e => .error e
  | .ok (str_field, _) =>
    match utf8DecodeAux str_field with
    | some cs => .ok (String.mk cs)
    | none => .error .invalidUtf8

/-! ## Byte-level encoders (used to build concrete buffers and reply data) -/

/-- Standard UTF-8 encoding of one character (the inverse of `utf8DecodeAux`
on valid scalar values); mirrors how Rust lays out `String` bytes. -/
def utf8EncodeChar (c : Char) : List Nat :=
  let n := c.toNat
  if n < 0x80 then [n]
  else if n < 0x800 then [0xC0 + n / 0x40, 0x80 + n % 0x40]
  else if n < 0x10000 then [0xE0 + n / 0x1000, 0x80 + n / 0x40 % 0x40, 0x80 + n % 0x40]
  else [0xF0 + n / 0x40000, 0x80 + n / 0x1000 % 0x40, 0x80 + n / 0x40 % 0x40, 0x80 + n % 0x40]

/-- The UTF-8 bytes of a string. -/
def utf8EncodeStr (s : String) : List Nat := (s.data.map utf8EncodeChar).flatten

/-- Base-128 varint encoding of a natural number (little-endian 7-bit groups,
continuation bit on every byte but the last); `fuel` bounds the byte count
(9 bytes suffice for every length a real buffer can carry). -/
def varintEncodeAux : Nat → Nat → List Nat
  | 0, n => [n % 0x80]
  | fuel + 1, n => if n < 0x80 then [n] else (0x80 + n % 0x80) :: varintEncodeAux fuel (n / 0x80)

/-- Base-128 varint encoding of a natural number. -/
def varintEncode (n : Nat) : List Nat := varintEncodeAux 9 n

/-- Modelled from the spec: the encoder side of the creation reply
(`CreateDenomResponse::encode`, whose definition is not among the examined
sources; only its call site in multitest.rs is).  Per the spec's binary reply
format, it encodes exactly one length-delimited field at field number 1
containing the canonical denom string. -/
def encodeCreateDenomResponse (new_token_denom : String) : List Nat :=
  let bytes := utf8EncodeStr new_token_denom
  ((1 <<< 3) ||| WIRE_TYPE_LENGTH_DELIMITED) :: (varintEncode bytes.length ++ bytes)

/-! ## Data model (types.rs, msg.rs) -/

/-- Embeds `DenomUnit` (types.rs). -/
structure DenomUnit where
  denom : String
  exponent : Nat
  aliases : List String
  deriving DecidableEq

/-- Embeds `Metadata` (types.rs). -/
structure Metadata where
  description : Option String
  denom_units : List DenomUnit
  base : Option String
  display : Option String
  name : Option String
  symbol : Option String
  deriving DecidableEq

/-- Embeds the `TokenMsg` enum, in the shape consumed by
`TokenFactoryModule::execute` (multitest.rs) and produced by the contract:
`CreateDenom` carries the optional metadata and `ForceTransfer` exists,
exactly as the `match` in multitest.rs lines 79-166 destructures them. -/
inductive TokenMsg where
  | CreateDenom (subdenom : String) (metadata : Option Metadata)
  | ChangeAdmin (denom : String) (new_admin_address : String)
  | MintTokens (denom : String) (amount : Nat) (mint_to_address : String)
  | BurnTokens (denom : String) (amount : Nat) (burn_from_address : String)
  | ForceTransfer (denom : String) (amount : Nat) (from_address : String) (to_address : String)
  | SetMetadata (denom : String) (metadata : Metadata)
  deriving DecidableEq

/-- Embeds `cosmwasm_std::Coin`. -/
structure Coin where
  denom : String
  amount : Nat
  deriving DecidableEq

/-- Embeds `cw_multi_test::BankSudo`: the registry's only outbound call to
the external ledger (`router.sudo(.., BankSudo::Mint { .. })`). -/
inductive BankSudo where
  | Mint (to_address : String) (amount : List Coin)
  deriving DecidableEq

/-- Embeds `cw_multi_test::AppResponse` (`data`, `events`; events are always
left empty by this module, so their element type is irrelevant). -/
structure AppResponse where
  data : Option (List Nat)
  events : List String
  deriving DecidableEq

/-- The host facilities the registry consults: `api.addr_validate` and
`router.sudo` (the bank).  Both are external collaborators; theorems that
depend on them are stated for an arbitrary `Api` and witnessed with
`mockApi` below. -/
structure Api where
  addrValidate : String → Except StdErr String
  bankSudo : BankSudo → Except StdErr Unit

/-- Modelled from the spec: the external identity-validation collaborator
and the external ledger at their boundary.  `addrValidate` reproduces the
test environment's Api (`cosmwasm_std::testing::MockApi`, not part of this
repository): inputs shorter than 3 bytes or longer than 54 bytes are
rejected; the repository's own test `msg_change_admin_empty_address` pins
the rejection of the empty address with exactly the message used here.  The
ledger is treated as infallible, as the spec's external-interface section
prescribes. -/
def mockApi : Api where
  addrValidate := fun input =>
    if input.utf8ByteSize < 3 then .error (.genericErr "Invalid input: human address too short")
    else if 54 < input.utf8ByteSize then .error (.genericErr "Invalid input: human address too long")
    else .ok input
  bankSudo := fun _ => .ok ()

/-- The registry's three persistent mappings (multitest.rs lines 32-39):
`METADATA : Map<&str, Metadata>`, `ADMIN : Map<&str, Addr>`,
`DENOMS_BY_CREATOR : Map<&Addr, Vec<String>>`, each modelled as an
association list keyed by the string key. -/
structure RegistryState where
  metadata : List (String × Metadata)
  admin : List (String × String)
  denoms_by_creator : List (String × List String)
  deriving DecidableEq

/-- `Map::may_load`: look a key up in an association list. -/
def mayLoad {α : Type} (m : List (String × α)) (k : String) : Option α :=
  match m with
  | [] => none
  | (k2, v) :: rest => if k2 = k then some v else mayLoad rest k

/-- `Map::save`: overwrite the value at a key (insert if absent). -/
def save {α : Type} (m : List (String × α)) (k : String) (v : α) : List (String × α) :=
  match m with
  | [] => [(k, v)]
  | (k2, v2) :: rest => if k2 = k then (k, v) :: rest else (k2, v2) :: save rest k v

/-! ## The registry state machine (`TokenFactoryModule::execute`) -/

/-- Embeds `TokenFactoryModule::execute` (multitest.rs lines 65-167).
The result is the storage after the call (threaded exactly as the Rust code
writes it: every error is returned before the first write), the list of
`router.sudo` calls made to the external bank, and the call's outcome.
The two `todo!()` arms (`BurnTokens`, `ForceTransfer`) abort; that abort is
modelled as the `Unimplemented` error. -/
def executeTokenMsg (api : Api) (st : RegistryState) (sender : String) (msg : TokenMsg) :
    RegistryState × List BankSudo × Except ContractError AppResponse :=
  match msg with
  | .CreateDenom subdenom metadata =>
    match build_denom sender subdenom with
    | .error e => (st, [], .error e)
    | .ok new_token_denom =>
      if (mayLoad st.admin new_token_denom).isSome then
        (st, [], .error .TokenExists)
      else
        let st1 := { st with admin := save st.admin new_token_denom sender }
        let denoms := (mayLoad st1.denoms_by_creator sender).getD []
        let st2 := { st1 with
          denoms_by_creator := save st1.denoms_by_creator sender (denoms ++ [new_token_denom]) }
        let st3 :=
          match metadata with
          | some md => { st2 with metadata := save st2.metadata new_token_denom md }
          | none => st2
        (st3, [], .ok { data := some (encodeCreateDenomResponse new_token_denom), events := [] })
  | .MintTokens denom amount mint_to_address =>
    match mayLoad st.admin denom with
    | none => (st, [], .error .TokenDoesntExist)
    | some admin =>
      if admin ≠ sender then
        (st, [], .error .NotTokenAdmin)
      else
        let mint := BankSudo.Mint mint_to_address [{ denom := denom, amount := amount }]
        match api.bankSudo mint with
        | .ok _ => (st, [mint], .ok { data := none, events := [] })
        | .error e => (st, [mint], .error (.Std e))
  | .BurnTokens _ _ _ => (st, [], .error .Unimplemented)
  | .ForceTransfer _ _ _ _ => (st, [], .error .Unimplemented)
  | .ChangeAdmin denom new_admin_address =>
    match mayLoad st.admin denom with
    | none => (st, [], .error .TokenDoesntExist)
    | some admin =>
      if admin ≠ sender then
        (st, [], .error .NotTokenAdmin)
      else
        match api.addrValidate new_admin_address with
        | .error e => (st, [], .error (.Std e))
        | .ok new_admin =>
          ({ st with admin := save st.admin denom new_admin }, [], .ok { data := none, events := [] })
  | .SetMetadata denom metadata =>
    match mayLoad st.admin denom with
    | none => (st, [], .error .TokenDoesntExist)
    | some admin =>
      if admin ≠ sender then
        (st, [], .error .NotTokenAdmin)
      else
        ({ st with metadata := save st.metadata denom metadata }, [], .ok { data := none, events := [] })

/-! ## The query service (`TokenFactoryModule::query`) -/

/-- Embeds the `TokenQuery` enum (query.rs). -/
inductive TokenQuery where
  | FullDenom (creator_addr : String) (subdenom : String)
  | Metadata (denom : String)
  | Admin (denom : String)
  | DenomsByCreator (creator : String)
  | Params
  deriving DecidableEq

/-- The typed content of the serialized query responses (query.rs response
structs); serialization itself is not modelled. -/
inductive QueryResponse where
  | fullDenom (denom : String)
  | metadata (metadata : Option Metadata)
  | admin (admin : String)
  | denomsByCreator (denoms : List String)
  deriving DecidableEq

/-- Embeds `TokenFactoryModule::query` (multitest.rs lines 184-220).
`Admin` uses `Map::load`, whose missing-key failure is `StdError::not_found`;
the `Params` arm is `todo!()`, modelled as `Unimplemented`. -/
def queryToken (api : Api) (st : RegistryState) (q : TokenQuery) :
    Except ContractError QueryResponse :=
  match q with
  | .FullDenom creator_addr subdenom =>
    match api.addrValidate creator_addr with
    | .error e => .error (.Std e)
    | .ok contract =>
      match build_denom contract subdenom with
      | .error e => .error e
      | .ok denom => .ok (.fullDenom denom)
  | .Metadata denom => .ok (.metadata (mayLoad st.metadata denom))
  | .Admin denom =>
    match mayLoad st.admin denom with
    | none => .error (.Std (.notFound "Addr"))
    | some admin => .ok (.admin admin)
  | .DenomsByCreator creator =>
    match api.addrValidate creator with
    | .error e => .error (.Std e)
    | .ok c => .ok (.denomsByCreator ((mayLoad st.denoms_by_creator c).getD []))
  | .Params => .error .Unimplemented

/-! ## The tokenfactory demo contract (contracts/tokenfactory/src/contract.rs) -/

/-- The error type of the tokenfactory contract (`TokenFactoryError`).  Its
declaring file (`contracts/tokenfactory/src/error.rs`) is not among the
examined sources; the variants are reconstructed from their uses in
contract.rs (`Std` via `?` on `addr_validate`, `InvalidSubdenom`,
`InvalidDenom { denom, message }`, `ZeroAmount`) and the spec's error
taxonomy. -/
inductive TokenFactoryError where
  | Std (err : StdErr)
  | InvalidSubdenom (subdenom : String)
  | InvalidDenom (denom : String) (message : String)
  | ZeroAmount
  deriving DecidableEq

/-- The contract's view of its host: `deps.api` plus the one custom query it
performs, `TokenQuerier::full_denom` (querier.rs), which sends
`TokenQuery::FullDenom { creator_addr, subdenom }` to the chain. -/
structure ContractDeps where
  api : Api
  query_full_denom : String → String → Except StdErr String

/-- The `Display` rendering of a `StdErr`, as produced by Rust's
`StdError::to_string` for the variants we model (used when `validate_denom`
embeds a querier error into an `InvalidDenom` message). -/
def stdErrToString (e : StdErr) : String :=
  match e with
  | .parseErr target msg => s!"Error parsing into type {target}: {msg}"
  | .genericErr msg => s!"Generic error: {msg}"
  | .invalidUtf8 => "Cannot decode UTF8 bytes into string"
  | .notFound kind => s!"{kind} not found"

/-- Rust's `char::to_ascii_lowercase`. -/
def asciiLower (c : Char) : Char :=
  if 65 ≤ c.toNat ∧ c.toNat ≤ 90 then Char.ofNat (c.toNat + 32) else c

/-- Rust's `str::eq_ignore_ascii_case`. -/
def eq_ignore_ascii_case (a b : String) : Bool :=
  a.data.map asciiLower == b.data.map asciiLower

/-- Rust's `str::split(sep)` for a single-character separator: the (possibly
empty) chunks between occurrences of `sep`; splitting the empty string
yields one empty chunk, as in Rust. -/
def splitChar (sep : Char) : List Char → List (List Char)
  | [] => [[]]
  | c :: rest =>
    if c = sep then
      [] :: splitChar sep rest
    else
      match splitChar sep rest with
      | h :: t => (c :: h) :: t
      | [] => [[c]]

/-- Embeds `validate_denom` (contract.rs lines 194-233): split the denom on
`/`, require exactly 3 parts, require the first part to equal `factory`
ASCII-case-insensitively, then confirm via the `FullDenom` query.
(The source message around `factory` quotes the word with apostrophes;
they are omitted here.) -/
def validate_denom (deps : ContractDeps) (denom : String) : Except TokenFactoryError Unit :=
  let tokenfactory_denom_parts := (splitChar '/' denom.data).map String.mk
  let n := tokenfactory_denom_parts.length
  if n ≠ 3 then
    .error (.InvalidDenom denom s!"denom must have 3 parts separated by /, had {n}")
  else
    let pfx := tokenfactory_denom_parts[0]!
    let creator_address := tokenfactory_denom_parts[1]!
    let subdenom := tokenfactory_denom_parts[2]!
    if ¬ (eq_ignore_ascii_case pfx "factory" = true) then
      .error (.InvalidDenom denom s!"prefix must be factory, was {pfx}")
    else
      match deps.query_full_denom creator_address subdenom with
      | .error e => .error (.InvalidDenom denom (stdErrToString e))
      | .ok _ => .ok ()

/-- The contract's `Response<TokenFactoryMsg>`: the attributes and outgoing
messages the handlers accumulate. -/
structure ContractResponse where
  attributes : List (String × String)
  messages : List TokenMsg
  deriving DecidableEq

/-- Embeds `TokenMsg::mint_contract_tokens` (msg.rs lines 55-61). -/
def mint_contract_tokens (denom : String) (amount : Nat) (mint_to_address : String) : TokenMsg :=
  .MintTokens denom amount mint_to_address

/-- Embeds `TokenMsg::burn_contract_tokens` (msg.rs lines 63-73): the
caller-supplied `burn_from_address` is discarded and the outgoing message
carries the empty string ("burn_from_address is currently disabled"). -/
def burn_contract_tokens (denom : String) (amount : Nat) (_burn_from_address : String) : TokenMsg :=
  .BurnTokens denom amount ""

/-- Embeds `create_denom` (contract.rs lines 67-82). -/
def create_denom (subdenom : String) : Except TokenFactoryError ContractResponse :=
  if subdenom = "" then
    .error (.InvalidSubdenom subdenom)
  else
    .ok { attributes := [("method", "create_denom")],
          messages := [TokenMsg.CreateDenom subdenom none] }

/-- Embeds `change_admin` (contract.rs lines 84-103): validate the new admin
address, validate the denom, then emit the `ChangeAdmin` message. -/
def change_admin (deps : ContractDeps) (denom : String) (new_admin_address : String) :
    Except TokenFactoryError ContractResponse :=
  match deps.api.addrValidate new_admin_address with
  | .error e => .error (.Std e)
  | .ok _ =>
    match validate_denom deps denom with
    | .error e => .error e
    | .ok _ =>
      .ok { attributes := [("method", "change_admin")],
            messages := [TokenMsg.ChangeAdmin denom new_admin_address] }

/-- Embeds `mint_tokens` (contract.rs lines 105-126): validate the recipient
address, reject a zero amount, validate the denom, then emit the mint
message. -/
def mint_tokens (deps : ContractDeps) (denom : String) (amount : Nat) (mint_to_address : String) :
    Except TokenFactoryError ContractResponse :=
  match deps.api.addrValidate mint_to_address with
  | .error e => .error (.Std e)
  | .ok _ =>
    if amount = 0 then
      .error .ZeroAmount
    else
      match validate_denom deps denom with
      | .error e => .error e
      | .ok _ =>
        .ok { attributes := [("method", "mint_tokens")],
              messages := [mint_contract_tokens denom amount mint_to_address] }

/-- Embeds `burn_tokens` (contract.rs lines 128-147): reject a zero amount,
validate the denom, then emit the burn message built by
`burn_contract_tokens` (which discards the caller's address). -/
def burn_tokens (deps : ContractDeps) (denom : String) (amount : Nat) (burn_from_address : String) :
    Except TokenFactoryError ContractResponse :=
  if amount = 0 then
    .error .ZeroAmount
  else
    match validate_denom deps denom with
    | .error e => .error e
    | .ok _ =>
      .ok { attributes := [("method", "burn_tokens")],
            messages := [burn_contract_tokens denom amount burn_from_address] }

/-- The concrete `ContractDeps` the contract's own tests run against: the
mock Api together with the multitest module's `FullDenom` query handler
(address validation followed by `build_denom`), errors surfaced as the
querier's generic errors. -/
def mockDeps : ContractDeps where
  api := mockApi
  query_full_denom := fun creator_addr subdenom =>
    match mockApi.addrValidate creator_addr with
    | .error e => .error e
    | .ok contract =>
      match build_denom contract subdenom with
      | .ok denom => .ok denom
      | .error (.InvalidFullDenom fd) => .error (.genericErr s!"Invalid full denom {fd}")
      | .error _ => .error (.genericErr "querier error")

/-! ## Helper lemmas -/

theorem mayLoad_save_self {α : Type} (m : List (String × α)) (k : String) (v : α) :
    mayLoad (save m k v) k = some v := by
  induction m with
  | nil => simp [save, mayLoad]
  | cons hd tl ih =>
    obtain ⟨k2, v2⟩ := hd
    by_cases h : k2 = k <;> simp [save, mayLoad, h, ih]

/-! ## Claim theorems -/

/-- Claim C1: for every (creator, subdenom) pair whose candidate string
`factory/{creator}/{subdenom}` has byte length in [3, 128], where creator
contains no `/`, creator is at most 75 bytes and subdenom at most 44 bytes,
`build_denom` succeeds and returns exactly the candidate string; for every
pair violating one of those conditions it fails with `InvalidFullDenom`
carrying the candidate string. -/
theorem c1_build_denom_validates (creator subdenom : String) :
    build_denom creator subdenom =
      (if 3 ≤ ("factory/" ++ creator ++ "/" ++ subdenom).utf8ByteSize
          ∧ ("factory/" ++ creator ++ "/" ++ subdenom).utf8ByteSize ≤ 128
          ∧ creator.data.contains '/' = false
          ∧ creator.utf8ByteSize ≤ 75
          ∧ subdenom.utf8ByteSize ≤ 44 then
        .ok ("factory/" ++ creator ++ "/" ++ subdenom)
      else
        .error (.InvalidFullDenom ("factory/" ++ creator ++ "/" ++ subdenom))) := by
  simp only [build_denom]
  cases h : creator.data.contains '/' <;> simp [h]
  all_goals try split_ifs with h1 h2
  all_goals first | rfl | omega

/-- Claim C2: for every valid denom name not yet present in the registry,
the first `CreateDenom` succeeds — installing the sender as admin and
appending the denom to the creator's list — and a second `CreateDenom` with
the same pair fails with `TokenExists`, leaving the state unchanged. -/
theorem c2_create_denom_twice (api : Api) (st : RegistryState)
    (sender subdenom d : String) (md : Option Metadata)
    (hbuild : build_denom sender subdenom = .ok d)
    (hfresh : mayLoad st.admin d = none) :
    ∃ st1 resp,
      executeTokenMsg api st sender (.CreateDenom subdenom md) = (st1, [], .ok resp) ∧
      mayLoad st1.admin d = some sender ∧
      mayLoad st1.denoms_by_creator sender
        = some ((mayLoad st.denoms_by_creator sender).getD [] ++ [d]) ∧
      executeTokenMsg api st1 sender (.CreateDenom subdenom md) =
        (st1, [], .error .TokenExists) := by
  have hagain : mayLoad (save st.admin d sender) d = some sender := mayLoad_save_self _ _ _
  cases md with
  | none =>
    refine ⟨⟨st.metadata, save st.admin d sender,
        save st.denoms_by_creator sender
          ((mayLoad st.denoms_by_creator sender).getD [] ++ [d])⟩,
      { data := some (encodeCreateDenomResponse d), events := [] }, ?_, ?_, ?_, ?_⟩
    · simp [executeTokenMsg, hbuild, hfresh]
    · exact hagain
    · exact mayLoad_save_self _ _ _
    · simp [executeTokenMsg, hbuild, hagain]
  | some m =>
    refine ⟨⟨save st.metadata d m, save st.admin d sender,
        save st.denoms_by_creator sender
          ((mayLoad st.denoms_by_creator sender).getD [] ++ [d])⟩,
      { data := some (encodeCreateDenomResponse d), events := [] }, ?_, ?_, ?_, ?_⟩
    · simp [executeTokenMsg, hbuild, hfresh]
    · exact hagain
    · exact mayLoad_save_self _ _ _
    · simp [executeTokenMsg, hbuild, hagain]

/-- Witness for C2 at a concrete input: creator `govner`, subdenom `fundz`,
empty starting registry. -/
theorem c2_create_denom_twice_witness :
    build_denom "govner" "fundz" = .ok "factory/govner/fundz" ∧
    mayLoad (RegistryState.mk [] [] []).admin "factory/govner/fundz" = none ∧
    (∃ st1 resp,
      executeTokenMsg mockApi ⟨[], [], []⟩ "govner" (.CreateDenom "fundz" none) =
        (st1, [], .ok resp) ∧
      mayLoad st1.admin "factory/govner/fundz" = some "govner" ∧
      mayLoad st1.denoms_by_creator "govner"
        = some ((mayLoad (RegistryState.mk [] [] []).denoms_by_creator "govner").getD []
            ++ ["factory/govner/fundz"]) ∧
      executeTokenMsg mockApi st1 "govner" (.CreateDenom "fundz" none) =
        (st1, [], .error .TokenExists)) :=
  ⟨by decide, by decide,
    c2_create_denom_twice mockApi ⟨[], [], []⟩ "govner" "fundz" "factory/govner/fundz" none
      (by decide) (by decide)⟩

/-- Every call of the registry's `execute` either leaves the state exactly
as it was, or succeeds: no arm writes before the last possible failure
point. -/
theorem executeTokenMsg_ok_or_unchanged (api : Api) (st : RegistryState)
    (sender : String) (msg : TokenMsg) :
    (executeTokenMsg api st sender msg).1 = st ∨
      ∃ r, (executeTokenMsg api st sender msg).2.2 = .ok r := by
  cases msg with
  | CreateDenom subdenom md =>
    simp only [executeTokenMsg]
    cases build_denom sender subdenom with
    | error e => left; rfl
    | ok d =>
      by_cases hs : (mayLoad st.admin d).isSome
      · simp [hs]
      · simp only [hs, Bool.false_eq_true, if_false]
        right
        cases md <;> exact ⟨_, rfl⟩
  | MintTokens denom amount addr =>
    simp only [executeTokenMsg]
    cases mayLoad st.admin denom with
    | none => left; rfl
    | some a =>
      by_cases hne : a ≠ sender
      · simp [hne]
      · simp only [hne, if_false]
        cases api.bankSudo (BankSudo.Mint addr [{ denom := denom, amount := amount }]) with
        | ok u => right; exact ⟨_, rfl⟩
        | error e => left; rfl
  | BurnTokens denom amount addr => left; rfl
  | ForceTransfer denom amount a1 a2 => left; rfl
  | ChangeAdmin denom new_admin_address =>
    simp only [executeTokenMsg]
    cases mayLoad st.admin denom with
    | none => left; rfl
    | some a =>
      by_cases hne : a ≠ sender
      · simp [hne]
      · simp only [hne, if_false]
        cases api.addrValidate new_admin_address with
        | ok na => right; exact ⟨_, rfl⟩
        | error e => left; rfl
  | SetMetadata denom md =>
    simp only [executeTokenMsg]
    cases mayLoad st.admin denom with
    | none => left; rfl
    | some a =>
      by_cases hne : a ≠ sender
      · simp [hne]
      · simp [hne]

/-- Claim C3 (amended): a failed registry operation leaves the state exactly
as it was; and for `ChangeAdmin`, `MintTokens` and `SetMetadata` — the three
admin-gated operations that are implemented — a sender that is not the
denom's current admin fails with `NotTokenAdmin`, the state is returned
unchanged, and the `Admin` query still answers the original admin.
(`BurnTokens` and `ForceTransfer` are unimplemented `todo!()` arms and fail
for every sender, admin or not; see the counterexample.) -/
theorem c3_error_preserves_state :
    (∀ (api : Api) (st : RegistryState) (sender : String) (msg : TokenMsg) (e : ContractError),
      (executeTokenMsg api st sender msg).2.2 = .error e →
      (executeTokenMsg api st sender msg).1 = st) ∧
    (∀ (api : Api) (st : RegistryState) (sender denom a : String),
      mayLoad st.admin denom = some a → a ≠ sender →
      (∀ na, executeTokenMsg api st sender (.ChangeAdmin denom na) =
        (st, [], .error .NotTokenAdmin)) ∧
      (∀ amount addr, executeTokenMsg api st sender (.MintTokens denom amount addr) =
        (st, [], .error .NotTokenAdmin)) ∧
      (∀ md, executeTokenMsg api st sender (.SetMetadata denom md) =
        (st, [], .error .NotTokenAdmin)) ∧
      queryToken api st (.Admin denom) = .ok (.admin a)) := by
  constructor
  · intro api st sender msg e herr
    rcases executeTokenMsg_ok_or_unchanged api st sender msg with h | ⟨r, hok⟩
    · exact h
    · rw [hok] at herr; cases herr
  · intro api st sender denom a hadm hne
    refine ⟨?_, ?_, ?_, ?_⟩
    · intro na; simp [executeTokenMsg, hadm, hne]
    · intro amount addr; simp [executeTokenMsg, hadm, hne]
    · intro md; simp [executeTokenMsg, hadm, hne]
    · simp [queryToken, hadm]

/-- Witness for C3 (amended) at a concrete input: `bobby` is not the admin
of `factory/alice/gold`, so `ChangeAdmin`, `MintTokens` and `SetMetadata`
all fail with `NotTokenAdmin` and the `Admin` query still answers
`alice`. -/
theorem c3_error_preserves_state_witness :
    mayLoad (RegistryState.mk [] [("factory/alice/gold", "alice")]
        [("alice", ["factory/alice/gold"])]).admin "factory/alice/gold" = some "alice" ∧
    executeTokenMsg mockApi
        ⟨[], [("factory/alice/gold", "alice")], [("alice", ["factory/alice/gold"])]⟩
        "bobby" (.MintTokens "factory/alice/gold" 7 "townies") =
      (⟨[], [("factory/alice/gold", "alice")], [("alice", ["factory/alice/gold"])]⟩,
        [], .error .NotTokenAdmin) ∧
    queryToken mockApi
        ⟨[], [("factory/alice/gold", "alice")], [("alice", ["factory/alice/gold"])]⟩
        (.Admin "factory/alice/gold") = .ok (.admin "alice") :=
  ⟨by decide,
    ((c3_error_preserves_state.2 mockApi
      ⟨[], [("factory/alice/gold", "alice")], [("alice", ["factory/alice/gold"])]⟩
      "bobby" "factory/alice/gold" "alice" (by decide) (by decide)).2.1 7 "townies"),
    ((c3_error_preserves_state.2 mockApi
      ⟨[], [("factory/alice/gold", "alice")], [("alice", ["factory/alice/gold"])]⟩
      "bobby" "factory/alice/gold" "alice" (by decide) (by decide)).2.2.2)⟩

/-- Counterexample for C3 as stated: `BurnTokens` is one of the registry
operations the claim quantifies over, `bobby` is not the admin of
`factory/alice/gold`, yet the call does not fail with `NotTokenAdmin` — the
arm is `todo!()` and aborts for every sender. -/
theorem c3_counterexample :
    (executeTokenMsg mockApi
      ⟨[], [("factory/alice/gold", "alice")], [("alice", ["factory/alice/gold"])]⟩
      "bobby" (.BurnTokens "factory/alice/gold" 5 "bobby")).2.2
      = .error .Unimplemented ∧
    (executeTokenMsg mockApi
      ⟨[], [("factory/alice/gold", "alice")], [("alice", ["factory/alice/gold"])]⟩
      "bobby" (.BurnTokens "factory/alice/gold" 5 "bobby")).2.2
      ≠ .error .NotTokenAdmin := by
  constructor <;> decide

/-- Claim C4: the registry's `ChangeAdmin`, called by the current admin with
the empty string as the new admin, does not accept the documented "no
admin" sentinel: address validation rejects the empty string (the behavior
the repository's own `msg_change_admin_empty_address` test expects), so the
call fails instead of clearing the admin.  This contradicts the binding's
documentation ("If the NewAdminAddress is empty, the denom will have no
admin"), hence the code, not the claim, is at fault. -/
theorem c4_empty_new_admin_rejected :
    executeTokenMsg mockApi
      ⟨[], [("factory/govner/fundz", "govner")], [("govner", ["factory/govner/fundz"])]⟩
      "govner" (.ChangeAdmin "factory/govner/fundz" "") =
    (⟨[], [("factory/govner/fundz", "govner")], [("govner", ["factory/govner/fundz"])]⟩,
      [], .error (.Std (.genericErr "Invalid input: human address too short"))) := by
  decide

/-- Counterexample for C5 as stated: in the registry module a zero-amount
mint by the denom's admin does not fail with a zero-amount error at all —
there is no zero check on that path — and the external ledger IS invoked
(with a zero-amount coin). -/
theorem c5_counterexample :
    executeTokenMsg mockApi
      ⟨[], [("factory/govner/fundz", "govner")], [("govner", ["factory/govner/fundz"])]⟩
      "govner" (.MintTokens "factory/govner/fundz" 0 "townies") =
    (⟨[], [("factory/govner/fundz", "govner")], [("govner", ["factory/govner/fundz"])]⟩,
      [BankSudo.Mint "townies" [{ denom := "factory/govner/fundz", amount := 0 }]],
      .ok { data := none, events := [] }) := by
  decide

/-- Claim C5 (amended): in the tokenfactory contract's `mint_tokens` path,
for every recipient that passes address validation, a zero amount fails
with `ZeroAmount` — before the denom is validated and before any outgoing
ledger message is constructed — regardless of the denom or of who the
admin is.  (A recipient rejected by address validation fails with that
address error first, and the registry module performs no zero-amount check
at all; see the counterexample.) -/
theorem c5_zero_mint_rejected (deps : ContractDeps) (denom mint_to_address r : String)
    (hvalid : deps.api.addrValidate mint_to_address = .ok r) :
    mint_tokens deps denom 0 mint_to_address = .error .ZeroAmount := by
  simp [mint_tokens, hvalid]

/-- Witness for C5 (amended) at a concrete input. -/
theorem c5_zero_mint_rejected_witness :
    mockDeps.api.addrValidate "townies" = .ok "townies" ∧
    mint_tokens mockDeps "factory/govner/fundz" 0 "townies" = .error .ZeroAmount :=
  ⟨by decide, c5_zero_mint_rejected mockDeps "factory/govner/fundz" "townies" "townies" (by decide)⟩

/-- Counterexample for C8 as stated: the `DenomsByCreator` query validates
the creator address first, so it is not total — for the empty creator
string it fails with the address-validation error instead of returning an
empty list. -/
theorem c8_counterexample :
    queryToken mockApi ⟨[], [], []⟩ (.DenomsByCreator "") =
      .error (.Std (.genericErr "Invalid input: human address too short")) := by
  decide

/-- Claim C8 (amended): for every creator accepted by address validation,
the `DenomsByCreator` query succeeds and returns the creator's stored
denom list — the empty list if the creator has never created a denom.
(Creators rejected by address validation make the query fail with the
address error; see the counterexample.) -/
theorem c8_denoms_by_creator (api : Api) (st : RegistryState) (creator c : String)
    (hvalid : api.addrValidate creator = .ok c) :
    queryToken api st (.DenomsByCreator creator) =
      .ok (.denomsByCreator ((mayLoad st.denoms_by_creator c).getD [])) := by
  simp [queryToken, hvalid]

/-- Witness for C8 (amended) at two concrete inputs folded into one state:
a creator with one denom and the same query shape for the stored list. -/
theorem c8_denoms_by_creator_witness :
    mockApi.addrValidate "govner" = .ok "govner" ∧
    queryToken mockApi ⟨[], [("factory/govner/fundz", "govner")],
        [("govner", ["factory/govner/fundz"])]⟩ (.DenomsByCreator "govner") =
      .ok (.denomsByCreator ["factory/govner/fundz"]) :=
  ⟨by decide,
    c8_denoms_by_creator mockApi
      ⟨[], [("factory/govner/fundz", "govner")], [("govner", ["factory/govner/fundz"])]⟩
      "govner" "govner" (by decide)⟩

/-- Claim C9: the contract's `BurnTokens` path discards the caller-supplied
`burn_from_address` entirely: for every denom and nonzero amount, two calls
differing only in that address produce identical results, and whenever the
call succeeds the outgoing message carries the empty string as
`burn_from_address`. -/
theorem c9_burn_from_discarded (deps : ContractDeps) (denom : String) (amount : Nat)
    (a b : String) (hnz : amount ≠ 0) :
    burn_tokens deps denom amount a = burn_tokens deps denom amount b ∧
    (∀ resp, burn_tokens deps denom amount a = .ok resp →
      resp.messages = [TokenMsg.BurnTokens denom amount ""]) := by
  refine ⟨rfl, ?_⟩
  intro resp hok
  simp only [burn_tokens, hnz, if_false] at hok
  cases hv : validate_denom deps denom with
  | error e => rw [hv] at hok; cases hok
  | ok u => rw [hv] at hok; cases hok; rfl

/-- Witness for C9 at a concrete input: burning 7 of an existing denom with
two different `burn_from` addresses. -/
theorem c9_burn_from_discarded_witness :
    (7 : Nat) ≠ 0 ∧
    burn_tokens mockDeps "factory/govner/fundz" 7 "alice"
      = burn_tokens mockDeps "factory/govner/fundz" 7 "bobby" ∧
    (∀ resp, burn_tokens mockDeps "factory/govner/fundz" 7 "alice" = .ok resp →
      resp.messages = [TokenMsg.BurnTokens "factory/govner/fundz" 7 ""]) :=
  ⟨by decide, c9_burn_from_discarded mockDeps "factory/govner/fundz" 7 "alice" "bobby" (by decide)⟩

/-- Counterexample for C6 as stated: the payload `factory/abc/xyz` is 15
UTF-8 bytes long, not 16, so the buffer the claim describes — tag `0x0A`,
varint length byte 16, then the UTF-8 bytes of the payload — underflows its
own length prefix and the decoder rejects it as too short instead of
returning the string. -/
theorem c6_counterexample :
    (utf8EncodeStr "factory/abc/xyz").length = 15 ∧
    parse_protobuf_string (10 :: 16 :: utf8EncodeStr "factory/abc/xyz") 1 =
      .error (.parseErr "length_prefix_field"
        "failed to decode Protobuf message: field #1: message too short") ∧
    parse_protobuf_string (10 :: 16 :: utf8EncodeStr "factory/abc/xyz") 1 ≠
      .ok "factory/abc/xyz" := by
  refine ⟨by decide, by decide, by decide⟩

/-- Claim C6 (amended): encoding field number 1 with payload
`factory/abc/xyz` — tag byte `0x0A`, varint length 15, then the 15 UTF-8
payload bytes — and decoding that buffer with the reply decoder requesting
field 1 returns `Ok "factory/abc/xyz"`. -/
theorem c6_roundtrip :
    (utf8EncodeStr "factory/abc/xyz").length = 15 ∧
    parse_protobuf_string (10 :: 15 :: utf8EncodeStr "factory/abc/xyz") 1 =
      .ok "factory/abc/xyz" := by
  refine ⟨by decide, by decide⟩

/-- Claim C7: for every buffer whose tag byte matches the requested field
number with the length-delimited wire type and whose varint length decodes
to `L`, if fewer than `L` bytes remain after the varint then the decoder
fails with the `message too short` parse error (no payload is sliced). -/
theorem c7_payload_too_short (field_number t L : Nat) (rest rem : List Nat)
    (htag : t >>> 3 = field_number) (hwire : t &&& 3 = 2)
    (hvarint : parse_protobuf_varint rest field_number = .ok (L, rem))
    (hshort : rem.length < L) :
    parse_protobuf_length_prefixed (t :: rest) field_number =
      .error (.parseErr "length_prefix_field"
        s!"failed to decode Protobuf message: field #{field_number}: message too short") := by
  simp [parse_protobuf_length_prefixed, htag, hwire, WIRE_TYPE_LENGTH_DELIMITED,
    hvarint, hshort]

/-- Witness for C7 at a concrete input: a length prefix claiming 50 bytes
with only 10 bytes remaining. -/
theorem c7_payload_too_short_witness :
    ((10 : Nat) >>> 3 = 1) ∧ ((10 : Nat) &&& 3 = 2) ∧
    parse_protobuf_varint [50, 1, 2, 3, 4, 5, 6, 7, 8, 9, 10] 1 =
      .ok (50, [1, 2, 3, 4, 5, 6, 7, 8, 9, 10]) ∧
    List.length [1, 2, 3, 4, 5, 6, 7, 8, 9, 10] < 50 ∧
    parse_protobuf_length_prefixed (10 :: [50, 1, 2, 3, 4, 5, 6, 7, 8, 9, 10]) 1 =
      .error (.parseErr "length_prefix_field"
        s!"failed to decode Protobuf message: field #{(1 : Nat)}: message too short") :=
  ⟨by decide, by decide, by decide, by decide,
    c7_payload_too_short 1 10 50 [50, 1, 2, 3, 4, 5, 6, 7, 8, 9, 10]
      [1, 2, 3, 4, 5, 6, 7, 8, 9, 10] (by decide) (by decide) (by decide) (by decide)⟩

/-- If the varint loop terminates successfully within `data`, it reads only
`data`'s bytes: appending more bytes changes nothing, and the terminating
index lies inside `data`. -/
theorem varint_step_append_ok (fn : Nat) (data extra : List Nat) :
    ∀ (fuel i len L j : Nat), varint_step fn data fuel i len = .ok (L, j) →
      varint_step fn (data ++ extra) fuel i len = .ok (L, j) ∧ j < data.length := by
  intro fuel
  induction fuel with
  | zero => intro i len L j h; simp [varint_step] at h
  | succ fuel ih =>
    intro i len L j h
    simp only [varint_step] at h ⊢
    cases hg : data[i]? with
    | none => simp only [hg] at h; cases h
    | some b =>
      have hib : i < data.length := by
        by_contra hcon
        rw [List.getElem?_eq_none (Nat.le_of_not_lt hcon)] at hg
        cases hg
      have hg2 : (data ++ extra)[i]? = some b := by
        rw [List.getElem?_append_left hib]; exact hg
      simp only [hg] at h
      simp only [hg2]
      by_cases hbit : (b &&& 0x80 == 0) = true
      · rw [if_pos hbit] at h
        cases h
        rw [if_pos hbit]
        exact ⟨rfl, hib⟩
      · rw [if_neg hbit] at h
        rw [if_neg hbit]
        exact ih (i + 1) _ L j h

/-- A successfully decoded varint is unaffected by bytes appended after the
buffer: the same length comes back and the appended bytes land after the
remainder. -/
theorem parse_protobuf_varint_append (data extra : List Nat) (fn L : Nat) (rem : List Nat)
    (h : parse_protobuf_varint data fn = .ok (L, rem)) :
    parse_protobuf_varint (data ++ extra) fn = .ok (L, rem ++ extra) := by
  simp only [parse_protobuf_varint] at h ⊢
  cases hs : varint_step fn data VARINT_MAX_BYTES 0 0 with
  | error e => simp only [hs] at h; cases h
  | ok p =>
    obtain ⟨L2, j⟩ := p
    simp only [hs] at h
    obtain ⟨hs2, hj⟩ := varint_step_append_ok fn data extra VARINT_MAX_BYTES 0 0 L2 j hs
    simp only [hs2]
    cases h
    rw [List.drop_append_of_le_length (by omega)]

/-- Claim C10: for every buffer beginning with a well-formed
length-delimited record for the requested field (matching tag, terminated
varint decoding to `L`, at least `L` bytes remaining, payload valid UTF-8),
the decoder returns exactly the `L` payload bytes as a string, and bytes
after the payload are ignored: appending arbitrary trailing bytes never
changes the result. -/
theorem c10_trailing_bytes_ignored (field_number t L : Nat)
    (rest rem extra : List Nat) (cs : List Char)
    (htag : t >>> 3 = field_number) (hwire : t &&& 3 = 2)
    (hvarint : parse_protobuf_varint rest field_number = .ok (L, rem))
    (hlen : L ≤ rem.length)
    (hutf8 : utf8DecodeAux (rem.take L) = some cs) :
    parse_protobuf_string (t :: rest) field_number = .ok (String.mk cs) ∧
    parse_protobuf_string ((t :: rest) ++ extra) field_number = .ok (String.mk cs) := by
  have h2 := parse_protobuf_varint_append rest extra field_number L rem hvarint
  have hnlt : ¬ (rem.length < L) := Nat.not_lt.mpr hlen
  constructor
  · simp [parse_protobuf_string, parse_protobuf_length_prefixed, htag, hwire,
      WIRE_TYPE_LENGTH_DELIMITED, hvarint, hnlt, hutf8]
  · have hcons : (t :: rest) ++ extra = t :: (rest ++ extra) := rfl
    have htake : (rem ++ extra).take L = rem.take L := List.take_append_of_le_length hlen
    have hnlt2 : ¬ (rem.length + extra.length < L) := by omega
    rw [hcons]
    simp [parse_protobuf_string, parse_protobuf_length_prefixed, htag, hwire,
      WIRE_TYPE_LENGTH_DELIMITED, h2, List.length_append, hnlt2, htake, hutf8]

/-- Witness for C10 at a concrete input: the record `[0x0A, 3, a, b, c]`
decodes to `abc`, with and without the trailing garbage `[255, 0]`. -/
theorem c10_trailing_bytes_ignored_witness :
    ((10 : Nat) >>> 3 = 1) ∧ ((10 : Nat) &&& 3 = 2) ∧
    parse_protobuf_varint [3, 97, 98, 99] 1 = .ok (3, [97, 98, 99]) ∧
    (3 ≤ List.length [(97 : Nat), 98, 99]) ∧
    utf8DecodeAux (List.take 3 [97, 98, 99]) = some ['a', 'b', 'c'] ∧
    parse_protobuf_string [10, 3, 97, 98, 99] 1 = .ok (String.mk ['a', 'b', 'c']) ∧
    parse_protobuf_string ([10, 3, 97, 98, 99] ++ [255, 0]) 1 = .ok (String.mk ['a', 'b', 'c']) :=
  ⟨by decide, by decide, by decide, by decide, by decide,
    (c10_trailing_bytes_ignored 1 10 3 [3, 97, 98, 99] [97, 98, 99] [255, 0] ['a', 'b', 'c']
      (by decide) (by decide) (by decide) (by decide) (by decide)).1,
    (c10_trailing_bytes_ignored 1 10 3 [3, 97, 98, 99] [97, 98, 99] [255, 0] ['a', 'b', 'c']
      (by decide) (by decide) (by decide) (by decide) (by decide)).2⟩

end TokenBindings
